import Mathlib

/-!
Formal model of the audio-enhancement job orchestrator implemented in
`src/src/App.tsx` of the audio-compressor webapp.

The embedding is shallow:
* JavaScript numbers that can become `Infinity` / `NaN` (the compression
  ratio computed at App.tsx line 134) are modelled by `JSNum`: an exact
  rational in the finite case, plus the three non-finite sentinels.  Where
  the source divides by zero the model returns the sentinel IEEE-754 would
  produce (`x/0 = ±Infinity` for `x ≠ 0`, `0/0 = NaN`); `Math.round` is
  `fun x => Int.floor (x + 1/2)` on finite values and the identity on the
  sentinels, exactly IEEE `Math.round` semantics on exactly representable
  inputs.
* The React component state (App.tsx lines 27-49) is the record `AppState`;
  `setX(v)` calls become record updates, applied in program order, so one
  invocation of `processAudio` is one state-transformer evaluation.
* The asynchronous ffmpeg.wasm engine is an oracle `EngineBehavior` giving
  the outcome of each suspension point of `processAudio` (load, fetch/write,
  run, readFile), the sequence of progress-callback ratios delivered during
  `run`, and the `Date.now()` timestamp.  A thrown JavaScript value is
  `JSError`: either an object carrying a string `message` field (possibly
  empty) or anything else.
* `URL.createObjectURL` allocations are tracked in `AppState.allocatedUrls`
  by numeric id; the source never calls `URL.revokeObjectURL`, so no
  operation of the model removes an id.
-/

/-- A JavaScript (IEEE-754 double) number, modelled exactly: a rational when
finite, otherwise one of the non-finite sentinels. -/
inductive JSNum where
  | finite (q : ℚ)
  | posInf
  | negInf
  | nan
deriving DecidableEq

/-- True exactly on finite numbers (corresponds to JS `Number.isFinite`). -/
def JSNum.isFinite : JSNum → Bool
  | JSNum.finite _ => true
  | _ => false

/-- The compression-ratio expression of App.tsx line 134:
`((originalSizeBytes - processedSizeBytes) / originalSizeBytes) * 100`,
with JS division semantics: a zero denominator gives `-Infinity` when the
numerator is negative and `NaN` for `0/0` (the numerator `0 - proc` is
negative whenever `proc > 0`). -/
def jsRatio (orig proc : Nat) : JSNum :=
  if orig = 0 then
    if proc = 0 then JSNum.nan else JSNum.negInf
  else
    JSNum.finite (((orig : ℚ) - (proc : ℚ)) / (orig : ℚ) * 100)

/-- `Math.round` of App.tsx line 135: round half toward positive infinity on
finite values, identity on `±Infinity` and `NaN`.  (`Rat.floor` is the
executable floor on `ℚ`; `Rat.floor_def'` identifies it with `Int.floor`.) -/
def jsRound : JSNum → JSNum
  | JSNum.finite q => JSNum.finite ((Rat.floor (q + 1/2) : ℤ) : ℚ)
  | JSNum.posInf => JSNum.posInf
  | JSNum.negInf => JSNum.negInf
  | JSNum.nan => JSNum.nan

/-- The JS comparison `x > 0` used by the render guard at App.tsx line 387;
`NaN > 0` and `-Infinity > 0` are both false in JS. -/
def jsGtZero : JSNum → Bool
  | JSNum.finite q => decide (0 < q)
  | JSNum.posInf => true
  | JSNum.negInf => false
  | JSNum.nan => false

/-! ## Format/Filter policy (App.tsx lines 36-40 and 88-120) -/

/-- The four enhancement toggles (App.tsx lines 37-40); all default false. -/
structure EnhancementOptions where
  normalizeVolume : Bool
  reduceNoise : Bool
  reduceHarshFrequencies : Bool
  convertToMono : Bool
deriving DecidableEq

/-- Stage spec pushed at App.tsx line 91. -/
def dynaudnormSpec : String := "dynaudnorm=g=20:f=150:p=0.95"

/-- Stage spec pushed at App.tsx line 94. -/
def anlmdnSpec : String := "anlmdn=s=0.3:p=0.001"

/-- Stage spec pushed at App.tsx line 97. -/
def equalizerSpec : String := "equalizer=f=5000:t=q:w=2:g=-5"

/-- The `filterComplex` array built at App.tsx lines 88-98: one conditional
push per toggle, in source order normalize, denoise, equalizer. -/
def filterComplex (o : EnhancementOptions) : List String :=
  (if o.normalizeVolume then [dynaudnormSpec] else [])
    ++ (if o.reduceNoise then [anlmdnSpec] else [])
    ++ (if o.reduceHarshFrequencies then [equalizerSpec] else [])

/-- The format-keyed encoder-parameter table of App.tsx lines 112-118
(`if / else if` chain on the selected output format). -/
def encoderParams (fmt : String) : List String :=
  if fmt = "mp3" then ["-b:a", "192k"]
  else if fmt = "ogg" then ["-q:a", "6"]
  else if fmt = "flac" then ["-compression_level", "8"]
  else []

/-- The full `ffmpegCommands` array of App.tsx lines 100-120: input flag,
then (when any filter stage is enabled) a single `-af` argument holding the
comma-joined stages, then the optional mono channel override, then the
encoder parameters for the format, then the output filename. -/
def ffmpegCommands (o : EnhancementOptions) (fmt name outName : String) :
    List String :=
  ["-i", name]
    ++ (if (filterComplex o).length > 0 then
          ["-af", String.intercalate "," (filterComplex o)]
        else [])
    ++ (if o.convertToMono then ["-ac", "1"] else [])
    ++ encoderParams fmt
    ++ [outName]

/-- The portion of the command array that does not depend on the output
format: everything before the encoder parameters. -/
def planCommon (o : EnhancementOptions) (name : String) : List String :=
  ["-i", name]
    ++ (if (filterComplex o).length > 0 then
          ["-af", String.intercalate "," (filterComplex o)]
        else [])
    ++ (if o.convertToMono then ["-ac", "1"] else [])

/-- Which toggle of `EnhancementOptions` governs a given stage spec; used to
state, in the spec's vocabulary, that the built filter list is exactly the
fixed ordered stage list restricted to enabled toggles. -/
def stageEnabled (o : EnhancementOptions) (s : String) : Bool :=
  if s = dynaudnormSpec then o.normalizeVolume
  else if s = anlmdnSpec then o.reduceNoise
  else if s = equalizerSpec then o.reduceHarshFrequencies
  else false

/-! ## File-size formatting (App.tsx lines 51-57)

`formatFileSize` computes `i = floor(log bytes / log 1024)` and renders
`parseFloat((bytes / 1024^i).toFixed(1)) + ' ' + sizes[i]`.  The float
logarithm/power/`toFixed` pipeline is modelled exactly over naturals and
rationals: the unit index is the base-1024 logarithm (computed by a
structurally recursive helper so the kernel can evaluate it), the numeric
part is `bytes / 1024^i` rounded half-up to one decimal, and JS number
printing drops a trailing `.0` (which `parseFloat` removes).  Indexing
`sizes` out of range concatenates the JS string `"undefined"`. -/

/-- Fuel-driven base-1024 logarithm (fuel = the number itself suffices since
each step divides by 1024). -/
def unitIndexAux : Nat → Nat → Nat
  | 0, _ => 0
  | fuel + 1, b => if b < 1024 then 0 else unitIndexAux fuel (b / 1024) + 1

/-- `Math.floor(Math.log(bytes) / Math.log(1024))` for `bytes ≥ 1`. -/
def unitIndex (b : Nat) : Nat := unitIndexAux b b

/-- The `sizes` array of App.tsx line 54. -/
def sizesArr : List String := ["Bytes", "KB", "MB", "GB"]

/-- JS printing of the one-decimal value `n10 / 10`: `parseFloat` strips a
trailing `.0`. -/
def renderNumber (n10 : Nat) : String :=
  if n10 % 10 = 0 then toString (n10 / 10)
  else toString (n10 / 10) ++ "." ++ toString (n10 % 10)

/-- `formatFileSize` of App.tsx lines 51-57. -/
def formatFileSize (bytes : Nat) : String :=
  if bytes = 0 then "0 Bytes"
  else
    let i := unitIndex bytes
    let p := 1024 ^ i
    renderNumber ((20 * bytes + p) / (2 * p)) ++ " " ++ sizesArr.getD i "undefined"

/-! ## Orchestrator state and engine oracle (App.tsx lines 26-154, 308-312,
324-331, 349-392, 438-447) -/

/-- The `progress` state of App.tsx line 28: `number | undefined | null`.
`null` is the initial/cleared value, `undefined` (here `indeterminate`) is
set when a run starts, and a number is set by the engine progress callback. -/
inductive Progress where
  | null
  | indeterminate
  | val (r : ℚ)
deriving DecidableEq

/-- The uploaded input of App.tsx line 27 (the blob handle is outside the
orchestrator; only name and byte size are consumed by `processAudio`). -/
structure InputFile where
  name : String
  size : Nat
deriving DecidableEq

/-- The `output` state of App.tsx line 49: an object-URL id allocated by
`URL.createObjectURL` plus the suggested filename. -/
structure OutputInfo where
  url : Nat
  name : String
deriving DecidableEq

/-- A thrown JavaScript value, as discriminated by the catch handler at
App.tsx lines 146-149: either an object carrying a string `message`
(possibly empty), or anything else. -/
inductive JSError where
  | withMessage (msg : String)
  | other
deriving DecidableEq

/-- The React component state of `App` (App.tsx lines 27-49), extended with
a ledger of live object URLs: `URL.createObjectURL` appends a fresh id and
only `URL.revokeObjectURL` (never called in the source) could remove one. -/
structure AppState where
  input : Option InputFile
  progress : Progress
  error : Option String
  outputFormat : String
  isProcessing : Bool
  originalSize : String
  processedSize : String
  compressionRatio : JSNum
  output : Option OutputInfo
  allocatedUrls : List Nat
  nextUrl : Nat
deriving DecidableEq

/-- Oracle for one invocation's interactions with ffmpeg.wasm: the outcome
of each suspension point of `processAudio`, the ratios delivered to the
progress callback during `run`, and the `Date.now()` timestamp. -/
structure EngineBehavior where
  isLoaded : Bool
  loadResult : Except JSError Unit
  writeResult : Except JSError Unit
  runResult : Except JSError Unit
  progressReports : List ℚ
  readResult : Except JSError (List Nat)
  now : Nat

/-- The fallback error text of App.tsx lines 125 and 151 (the same string
literal appears at both sites). -/
def fallbackMsg : String := "处理过程中发生错误，请查看控制台"

/-- The message extraction of App.tsx lines 145-152: use `error.message`
whenever the thrown value is an object with a string `message` field (the
empty string included), otherwise the fixed fallback text. -/
def errorText (e : JSError) : String :=
  match e with
  | JSError.withMessage m => m
  | JSError.other => fallbackMsg

/-- The catch handler of App.tsx lines 142-153: clear progress to `null`,
stop processing, store the extracted message. -/
def onCatch (st : AppState) (e : JSError) : AppState :=
  { st with progress := Progress.null, isProcessing := false,
            error := some (errorText e) }

/-- Replay of the engine progress callback (App.tsx line 45): each reported
ratio overwrites `progress` with `ratio * 100`; no report leaves the value
untouched. -/
def applyReports (reports : List ℚ) (p : Progress) : Progress :=
  reports.foldl (fun _ r => Progress.val (r * 100)) p

/-- `if (!ffmpeg.isLoaded()) await ffmpeg.load()` (App.tsx lines 79-81):
already-loaded engines skip the load attempt entirely. -/
def ensureLoaded (eng : EngineBehavior) : Except JSError Unit :=
  if eng.isLoaded then Except.ok () else eng.loadResult

/-- `processAudio` (App.tsx lines 59-154) as a state transformer, one record
update per `setX` call in program order:
1. lines 63-68: mark processing, set progress indeterminate, clear error,
   output, processed size and ratio;
2. lines 70-73: missing input only resets `isProcessing` and returns;
3. line 77: record the formatted original size;
4. lines 79-84: engine load, then staging the input bytes — a thrown error
   lands in the catch handler;
5. lines 85, 122: build the timestamped output name and run the plan,
   relaying progress callbacks;
6. lines 123-128: read the output; zero bytes set the fallback error and
   stop (progress is left untouched here);
7. lines 131-141: record processed size, the rounded compression ratio, and
   the packaged artifact (a freshly allocated object URL). -/
def processAudio (st0 : AppState) (eng : EngineBehavior) : AppState :=
  let st := { st0 with
    isProcessing := true, progress := Progress.indeterminate,
    error := none, output := none, processedSize := "",
    compressionRatio := JSNum.finite 0 }
  match st.input with
  | none => { st with isProcessing := false }
  | some inp =>
    let originalSizeBytes := inp.size
    let st := { st with originalSize := formatFileSize originalSizeBytes }
    match ensureLoaded eng with
    | Except.error e => onCatch st e
    | Except.ok _ =>
      match eng.writeResult with
      | Except.error e => onCatch st e
      | Except.ok _ =>
        let outputFilename :=
          inp.name ++ "_processed_" ++ toString eng.now ++ "." ++ st.outputFormat
        match eng.runResult with
        | Except.error e => onCatch st e
        | Except.ok _ =>
          let st := { st with
            progress := applyReports eng.progressReports st.progress }
          match eng.readResult with
          | Except.error e => onCatch st e
          | Except.ok data =>
            if data.length = 0 then
              { st with error := some fallbackMsg, isProcessing := false }
            else
              let processedSizeBytes := data.length
              let st := { st with
                processedSize := formatFileSize processedSizeBytes,
                compressionRatio :=
                  jsRound (jsRatio originalSizeBytes processedSizeBytes) }
              { st with
                output := some { url := st.nextUrl, name := outputFilename },
                allocatedUrls := st.allocatedUrls ++ [st.nextUrl],
                nextUrl := st.nextUrl + 1,
                isProcessing := false }

/-- The run button (App.tsx lines 308-312): `disabled={isProcessing}`, so a
click is a request that only reaches `processAudio` when no job is live. -/
def runButtonClick (st : AppState) (eng : EngineBehavior) : AppState :=
  if st.isProcessing then st else processAudio st eng

/-- The reset button handler (App.tsx lines 438-447): clear input, output,
progress, error and all size metrics.  No `URL.revokeObjectURL` call exists
in the source, so the allocation ledger is untouched. -/
def resetApp (st : AppState) : AppState :=
  { st with input := none, output := none, progress := Progress.null,
            error := none, originalSize := "", processedSize := "",
            compressionRatio := JSNum.finite 0 }

/-- JS string truthiness used by the render guard at App.tsx line 376. -/
def strTruthy (s : String) : Bool := !(s == "")

/-- The render guard for the progress bar (App.tsx line 324):
`progress !== null && progress !== 100` (an `undefined` progress passes the
strict-inequality checks and renders the bar). -/
def progressBarShown (st : AppState) : Bool :=
  match st.progress with
  | Progress.null => false
  | Progress.indeterminate => true
  | Progress.val r => !(decide (r = 100))

/-- The render guard chain for the compression-ratio row (App.tsx lines
349, 376, 387): an output artifact exists, both size strings are truthy,
and `compressionRatio > 0`. -/
def ratioDisplayed (st : AppState) : Bool :=
  st.output.isSome && strTruthy st.originalSize && strTruthy st.processedSize
    && jsGtZero st.compressionRatio

/-- Concrete busy state and engine used to witness C2. -/
def c2State : AppState :=
  { input := some { name := "a.wav", size := 1000 },
    progress := Progress.indeterminate, error := none, outputFormat := "ogg",
    isProcessing := true, originalSize := "1000 Bytes", processedSize := "",
    compressionRatio := JSNum.finite 0, output := none,
    allocatedUrls := [0], nextUrl := 1 }

/-- Engine oracle used to witness C2 (its content is irrelevant: the
request is ignored before any engine interaction). -/
def c2Engine : EngineBehavior :=
  { isLoaded := true, loadResult := Except.ok (), writeResult := Except.ok (),
    runResult := Except.ok (), progressReports := [],
    readResult := Except.ok [1], now := 3 }

/-- Concrete state refuting C7 as stated: no input is present, but a
previous error message and a cleared progress value are observable. -/
def c7State : AppState :=
  { input := none, progress := Progress.null, error := some "boom",
    outputFormat := "ogg", isProcessing := false, originalSize := "",
    processedSize := "", compressionRatio := JSNum.finite 0, output := none,
    allocatedUrls := [], nextUrl := 0 }

/-- Engine oracle for the C7 runs (never consulted: the invocation stops at
the missing-input check). -/
def c7Engine : EngineBehavior :=
  { isLoaded := false, loadResult := Except.ok (), writeResult := Except.ok (),
    runResult := Except.ok (), progressReports := [],
    readResult := Except.ok [1], now := 4 }

/-- Pre-run state for the C9 scenario: an input is staged, its playback URL
(id 4) is live, and the next object URL to be allocated has id 5. -/
def c9Start : AppState :=
  { input := some { name := "b.wav", size := 2048 },
    progress := Progress.null, error := none, outputFormat := "ogg",
    isProcessing := false, originalSize := "2 KB", processedSize := "",
    compressionRatio := JSNum.finite 0, output := none,
    allocatedUrls := [4], nextUrl := 5 }

/-- Engine behavior producing a successful run for the C9 scenario. -/
def c9Engine : EngineBehavior :=
  { isLoaded := true, loadResult := Except.ok (), writeResult := Except.ok (),
    runResult := Except.ok (), progressReports := [],
    readResult := Except.ok [1, 2, 3, 4], now := 9 }

/-- The succeeded terminal state the C9 scenario resets from. -/
def c9Succeeded : AppState := processAudio c9Start c9Engine

/-- Staged input for the C3 scenario. -/
def c3Input : InputFile := { name := "a.wav", size := 1000 }

/-- Pre-run state for the C3 scenario. -/
def c3State : AppState :=
  { input := some c3Input, progress := Progress.null, error := none,
    outputFormat := "ogg", isProcessing := false, originalSize := "",
    processedSize := "", compressionRatio := JSNum.finite 0, output := none,
    allocatedUrls := [], nextUrl := 0 }

/-- Engine behavior for the C3 scenario: execution resolves after reporting
50% progress, but reading the output back yields zero bytes. -/
def c3Engine : EngineBehavior :=
  { isLoaded := true, loadResult := Except.ok (), writeResult := Except.ok (),
    runResult := Except.ok (), progressReports := [1/2],
    readResult := Except.ok [], now := 7 }

/-- The four interaction points of one run at which a JavaScript value can
be thrown and reach the catch handler: engine load, input staging, plan
execution, output read-back. -/
def engineFailsWith (eng : EngineBehavior) (e : JSError) : Prop :=
  ensureLoaded eng = Except.error e
  ∨ (ensureLoaded eng = Except.ok () ∧ eng.writeResult = Except.error e)
  ∨ (ensureLoaded eng = Except.ok () ∧ eng.writeResult = Except.ok ()
      ∧ eng.runResult = Except.error e)
  ∨ (ensureLoaded eng = Except.ok () ∧ eng.writeResult = Except.ok ()
      ∧ eng.runResult = Except.ok () ∧ eng.readResult = Except.error e)

/-- Staged input for the C4 scenario. -/
def c4Input : InputFile := { name := "c.wav", size := 500 }

/-- Pre-run state for the C4 scenario. -/
def c4State : AppState :=
  { input := some c4Input, progress := Progress.null, error := none,
    outputFormat := "mp3", isProcessing := false, originalSize := "",
    processedSize := "", compressionRatio := JSNum.finite 0, output := none,
    allocatedUrls := [], nextUrl := 0 }

/-- Engine behavior for the C4 scenario: plan execution throws an object
whose `message` field is the empty string. -/
def c4Engine : EngineBehavior :=
  { isLoaded := true, loadResult := Except.ok (), writeResult := Except.ok (),
    runResult := Except.error (JSError.withMessage ""), progressReports := [],
    readResult := Except.ok [1], now := 8 }

/-- Staged input for the C10 scenario (the processed output will be larger
than this original). -/
def c10Input : InputFile := { name := "d.wav", size := 4 }

/-- Pre-run state for the C10 scenario. -/
def c10State : AppState :=
  { input := some c10Input, progress := Progress.null, error := none,
    outputFormat := "flac", isProcessing := false, originalSize := "",
    processedSize := "", compressionRatio := JSNum.finite 0, output := none,
    allocatedUrls := [], nextUrl := 2 }

/-- Output bytes for the C10 scenario: ten bytes, larger than the
four-byte original. -/
def c10Data : List Nat := [9, 9, 9, 9, 9, 9, 9, 9, 9, 9]

/-- Engine behavior producing the C10 successful run. -/
def c10Engine : EngineBehavior :=
  { isLoaded := true, loadResult := Except.ok (), writeResult := Except.ok (),
    runResult := Except.ok (), progressReports := [],
    readResult := Except.ok c10Data, now := 11 }

/-! ## Proofs -/

example : jsRound (jsRatio 1000000 400000) = JSNum.finite 60 := by
  norm_num [jsRatio, jsRound, Rat.floor_def']

example : jsGtZero (jsRound (jsRatio 0 5)) = false := by
  norm_num [jsRatio, jsRound, jsGtZero]

example : jsGtZero (jsRound (jsRatio 0 0)) = false := by
  norm_num [jsRatio, jsRound, jsGtZero]

example : formatFileSize 0 = "0 Bytes" := by decide

example : formatFileSize 1000 = "1000 Bytes" := by decide

example : formatFileSize 1536 = "1.5 KB" := by decide

example : formatFileSize 2048 = "2 KB" := by decide

/-- Every formatted size is a non-empty string (JS string truthiness at
App.tsx line 376 treats exactly the empty string as false). -/
theorem formatFileSize_ne_empty (b : Nat) : formatFileSize b ≠ "" := by
  unfold formatFileSize
  split
  · decide
  · intro h
    have h2 := congrArg String.length h
    simp [String.length_append] at h2
    exact absurd h2.1.2 (by decide)

/-- C1: for every combination of the four enhancement toggles, the filter
stages of the built plan are exactly the fixed ordered list
normalize → denoise → harsh-frequency attenuation restricted to the enabled
toggles (first conjunct); and the plan carries them comma-joined inside a
single `-af` filter-graph argument, with the mono `-ac 1` override emitted
as a separate chunk after the filter-graph argument, independent of its
content (second conjunct: the full decomposition of the command array). -/
theorem C1_filter_order (o : EnhancementOptions) (fmt name out : String) :
    filterComplex o =
      List.filter (stageEnabled o) [dynaudnormSpec, anlmdnSpec, equalizerSpec]
    ∧ ffmpegCommands o fmt name out =
        ["-i", name]
          ++ (if filterComplex o = [] then []
              else ["-af", String.intercalate "," (filterComplex o)])
          ++ (if o.convertToMono then ["-ac", "1"] else [])
          ++ encoderParams fmt
          ++ [out] := by
  obtain ⟨n, d, h, m⟩ := o
  constructor
  · cases n <;> cases d <;> cases h <;>
      simp [filterComplex, stageEnabled, dynaudnormSpec, anlmdnSpec,
        equalizerSpec]
  · cases n <;> cases d <;> cases h <;> cases m <;>
      simp [ffmpegCommands, filterComplex]

/-- C5: with all four toggles off the plan is exactly the input flag, the
selected format's encoder parameters, and the output name: no filter stage,
no `-af` argument, no channel override. -/
theorem C5_all_toggles_off (fmt name out : String) :
    ffmpegCommands ⟨false, false, false, false⟩ fmt name out =
      ["-i", name] ++ encoderParams fmt ++ [out] := by
  simp [ffmpegCommands, filterComplex]

/-- C8: the command array splits into a format-independent part
(`planCommon`, holding all filter stages and the channel override) followed
by the encoder parameters and output name, so two plans built from the same
toggles but different formats agree on everything before the encoder
portion; and the encoder parameters always come from the fixed
format-keyed table, one entry at a time, never combined. -/
theorem C8_format_changes_only_encoder (o : EnhancementOptions)
    (fmt f1 f2 name out : String) :
    ffmpegCommands o fmt name out = planCommon o name ++ (encoderParams fmt ++ [out])
    ∧ (ffmpegCommands o f1 name out).take (planCommon o name).length
        = (ffmpegCommands o f2 name out).take (planCommon o name).length
    ∧ encoderParams "mp3" = ["-b:a", "192k"]
    ∧ encoderParams "ogg" = ["-q:a", "6"]
    ∧ encoderParams "flac" = ["-compression_level", "8"]
    ∧ encoderParams "wav" = []
    ∧ encoderParams fmt ∈
        [["-b:a", "192k"], ["-q:a", "6"], ["-compression_level", "8"], []] := by
  have hsplit : ∀ g : String, ffmpegCommands o g name out
      = planCommon o name ++ (encoderParams g ++ [out]) := by
    intro g
    simp [ffmpegCommands, planCommon, List.append_assoc]
  refine ⟨hsplit fmt, ?_, rfl, rfl, rfl, rfl, ?_⟩
  · rw [hsplit f1, hsplit f2]
    simp [List.take_append]
  · unfold encoderParams
    split
    · simp
    · split
      · simp
      · split <;> simp

/-- C6: the stored compression ratio is
`Math.round((orig - proc) / orig * 100)`, so the 1,000,000 → 400,000 case
rounds to exactly 60; and with a zero original size the computation is
total, never a finite number (JS yields `-Infinity`, or `NaN` for `0/0`),
and the positivity display guard suppresses it. -/
theorem C6_compression_ratio (proc : Nat) :
    jsRound (jsRatio 1000000 400000) = JSNum.finite 60
    ∧ (jsRound (jsRatio 0 proc)).isFinite = false
    ∧ jsGtZero (jsRound (jsRatio 0 proc)) = false := by
  refine ⟨?_, ?_, ?_⟩
  · norm_num [jsRatio, jsRound, Rat.floor_def']
  · cases proc <;> simp [jsRatio, jsRound, JSNum.isFinite]
  · cases proc <;> simp [jsRatio, jsRound, jsGtZero]

/-- C2: while a job is live (`isProcessing = true`, the state covering both
the Loading and Running phases), a run request through the UI is ignored —
the click handler is disabled, so the state is unchanged for every possible
engine behavior, hence no second execution is started and the live job's
outcome alone governs the state until it reaches a terminal phase. -/
theorem C2_single_flight (st : AppState) (eng : EngineBehavior)
    (h : st.isProcessing = true) :
    runButtonClick st eng = st := by
  simp [runButtonClick, h]

/-- Witness for C2 at a concrete busy state. -/
theorem C2_single_flight_witness :
    c2State.isProcessing = true ∧ runButtonClick c2State c2Engine = c2State :=
  ⟨rfl, C2_single_flight c2State c2Engine rfl⟩

/-- C7 counterexample: invoking `processAudio` with no input is not a
no-op — the pre-existing error message is cleared and the progress value
changes from `null` to the indeterminate marker, both observable (the
indeterminate marker even renders the progress bar). -/
theorem C7_counterexample :
    c7State.error = some "boom"
    ∧ (processAudio c7State c7Engine).error = none
    ∧ c7State.progress = Progress.null
    ∧ (processAudio c7State c7Engine).progress = Progress.indeterminate
    ∧ progressBarShown c7State = false
    ∧ progressBarShown (processAudio c7State c7Engine) = true := by
  refine ⟨rfl, ?_, rfl, ?_, rfl, ?_⟩ <;> rfl

/-- C7 (amended): a run invocation with no input present first performs the
transient reset every invocation performs — error, output artifact,
processed size and ratio cleared, progress set to the indeterminate
marker — and then stops without starting a job: `isProcessing` ends false
and the input, original-size text, output format and the object-URL ledger
are untouched, for every engine behavior (no engine call is made). -/
theorem C7_no_input (st : AppState) (eng : EngineBehavior)
    (h : st.input = none) :
    processAudio st eng =
      { st with isProcessing := false, progress := Progress.indeterminate,
                error := none, output := none, processedSize := "",
                compressionRatio := JSNum.finite 0 } := by
  simp [processAudio, h]

/-- Witness for the amended C7 at a concrete input-free state. -/
theorem C7_no_input_witness :
    c7State.input = none
    ∧ processAudio c7State c7Engine =
        { c7State with isProcessing := false,
                       progress := Progress.indeterminate, error := none,
                       output := none, processedSize := "",
                       compressionRatio := JSNum.finite 0 } :=
  ⟨rfl, C7_no_input c7State c7Engine rfl⟩

/-- C9 counterexample: after a succeeded job whose artifact holds object
URL 5, resetting clears input and output, but URL 5 is still in the ledger
of live object URLs — the source never calls `URL.revokeObjectURL`, so the
prior artifact's underlying resource is not released. -/
theorem C9_counterexample :
    c9Succeeded.output = some { url := 5, name := "b.wav_processed_9.ogg" }
    ∧ c9Succeeded.allocatedUrls = [4, 5]
    ∧ (resetApp c9Succeeded).input = none
    ∧ (resetApp c9Succeeded).output = none
    ∧ (resetApp c9Succeeded).allocatedUrls = [4, 5] := by
  refine ⟨?_, ?_, ?_, ?_, ?_⟩ <;> rfl

/-- C9 (amended): resetting from any state — in particular after a
succeeded job — returns exactly to the Idle shape: input, output artifact
and error cleared, progress back to `null`, size metrics and ratio zeroed;
but the ledger of allocated object URLs is unchanged, so the prior
artifact's underlying resource is dropped without being released. -/
theorem C9_reset_to_idle (st : AppState) :
    (resetApp st).input = none
    ∧ (resetApp st).output = none
    ∧ (resetApp st).error = none
    ∧ (resetApp st).progress = Progress.null
    ∧ (resetApp st).originalSize = ""
    ∧ (resetApp st).processedSize = ""
    ∧ (resetApp st).compressionRatio = JSNum.finite 0
    ∧ (resetApp st).isProcessing = st.isProcessing
    ∧ (resetApp st).allocatedUrls = st.allocatedUrls :=
  ⟨rfl, rfl, rfl, rfl, rfl, rfl, rfl, rfl, rfl⟩

/-- Shape of the state produced by a fully successful run: engine loaded,
input staged, plan executed and a non-empty output read back (App.tsx lines
122-141). -/
theorem processAudio_success (st : AppState) (eng : EngineBehavior)
    (inp : InputFile) (data : List Nat)
    (hin : st.input = some inp)
    (hload : ensureLoaded eng = Except.ok ())
    (hwrite : eng.writeResult = Except.ok ())
    (hrun : eng.runResult = Except.ok ())
    (hread : eng.readResult = Except.ok data)
    (hne : data.length ≠ 0) :
    processAudio st eng = { st with
      isProcessing := false,
      progress := applyReports eng.progressReports Progress.indeterminate,
      error := none,
      originalSize := formatFileSize inp.size,
      processedSize := formatFileSize data.length,
      compressionRatio := jsRound (jsRatio inp.size data.length),
      output := some ⟨st.nextUrl,
        inp.name ++ "_processed_" ++ toString eng.now ++ "." ++ st.outputFormat⟩,
      allocatedUrls := st.allocatedUrls ++ [st.nextUrl],
      nextUrl := st.nextUrl + 1 } := by
  simp [processAudio, hin, hload, hwrite, hrun, hread, hne]

/-- Shape of the state produced when execution resolves but the read-back
output has zero bytes (App.tsx lines 122-128): only the error text and the
processing flag change, progress keeps whatever the engine last reported. -/
theorem processAudio_empty_output (st : AppState) (eng : EngineBehavior)
    (inp : InputFile) (data : List Nat)
    (hin : st.input = some inp)
    (hload : ensureLoaded eng = Except.ok ())
    (hwrite : eng.writeResult = Except.ok ())
    (hrun : eng.runResult = Except.ok ())
    (hread : eng.readResult = Except.ok data)
    (hlen : data.length = 0) :
    processAudio st eng = { st with
      isProcessing := false,
      progress := applyReports eng.progressReports Progress.indeterminate,
      error := some fallbackMsg,
      originalSize := formatFileSize inp.size,
      processedSize := "",
      compressionRatio := JSNum.finite 0,
      output := none } := by
  simp [processAudio, hin, hload, hwrite, hrun, hread, hlen]

/-- C3 counterexample: on the empty-output path the failure state is set
(fallback error text, no artifact, processing stopped) but the progress
indication is NOT cleared — it stays at the engine's last reported value,
50, and the progress bar is still rendered. -/
theorem C3_counterexample :
    (processAudio c3State c3Engine).error = some fallbackMsg
    ∧ (processAudio c3State c3Engine).output = none
    ∧ (processAudio c3State c3Engine).isProcessing = false
    ∧ (processAudio c3State c3Engine).progress = Progress.val 50
    ∧ progressBarShown (processAudio c3State c3Engine) = true := by
  have hp : (processAudio c3State c3Engine).progress = Progress.val 50 := by
    show Progress.val (1/2 * 100) = Progress.val 50
    norm_num
  refine ⟨rfl, rfl, rfl, hp, ?_⟩
  rw [progressBarShown, hp]
  norm_num

/-- C3 (amended): when execution resolves but the read-back output has zero
bytes, the final state is failed — the fixed non-empty fallback error text
is set, no output artifact is created, processing stops — but the progress
indication is not cleared: it remains whatever the engine's progress
callbacks last reported (the cleared `null` value is only set on the
thrown-error path). -/
theorem C3_empty_output_failure (st : AppState) (eng : EngineBehavior)
    (inp : InputFile) (data : List Nat)
    (hin : st.input = some inp)
    (hload : ensureLoaded eng = Except.ok ())
    (hwrite : eng.writeResult = Except.ok ())
    (hrun : eng.runResult = Except.ok ())
    (hread : eng.readResult = Except.ok data)
    (hlen : data.length = 0) :
    (processAudio st eng).error = some fallbackMsg
    ∧ 0 < fallbackMsg.length
    ∧ (processAudio st eng).output = none
    ∧ (processAudio st eng).isProcessing = false
    ∧ (processAudio st eng).progress
        = applyReports eng.progressReports Progress.indeterminate := by
  rw [processAudio_empty_output st eng inp data hin hload hwrite hrun hread hlen]
  exact ⟨rfl, by decide, rfl, rfl, rfl⟩

/-- Witness for the amended C3 at the concrete empty-output scenario. -/
theorem C3_empty_output_failure_witness :
    c3State.input = some c3Input
    ∧ ((processAudio c3State c3Engine).error = some fallbackMsg
        ∧ 0 < fallbackMsg.length
        ∧ (processAudio c3State c3Engine).output = none
        ∧ (processAudio c3State c3Engine).isProcessing = false
        ∧ (processAudio c3State c3Engine).progress
            = applyReports c3Engine.progressReports Progress.indeterminate) :=
  ⟨rfl, C3_empty_output_failure c3State c3Engine c3Input []
    rfl rfl rfl rfl rfl rfl⟩

/-- C4 (amended): whatever interaction point throws, the message stored in
the failed state is `errorText` of the thrown value: the thrown object's
`message` whenever that field is a string — the empty string included — and
the single fixed fallback text otherwise (the same text that the
empty-output path stores); progress is cleared and processing stops. -/
theorem C4_error_message_policy (st : AppState) (eng : EngineBehavior)
    (inp : InputFile) (e : JSError)
    (hin : st.input = some inp)
    (hfail : engineFailsWith eng e) :
    (processAudio st eng).error = some (errorText e)
    ∧ (processAudio st eng).isProcessing = false
    ∧ (processAudio st eng).progress = Progress.null
    ∧ (∀ m, errorText (JSError.withMessage m) = m)
    ∧ errorText JSError.other = fallbackMsg := by
  have hcore : (processAudio st eng).error = some (errorText e)
      ∧ (processAudio st eng).isProcessing = false
      ∧ (processAudio st eng).progress = Progress.null := by
    rcases hfail with h1 | ⟨h1, h2⟩ | ⟨h1, h2, h3⟩ | ⟨h1, h2, h3, h4⟩
    · refine ?_
      simp [processAudio, hin, h1, onCatch]
    · simp [processAudio, hin, h1, h2, onCatch]
    · simp [processAudio, hin, h1, h2, h3, onCatch]
    · simp [processAudio, hin, h1, h2, h3, h4, onCatch]
  exact ⟨hcore.1, hcore.2.1, hcore.2.2, fun _ => rfl, rfl⟩

/-- C4 counterexample: a thrown failure whose `message` is the empty string
is stored verbatim — the failed state carries the empty message (length 0),
which is neither a non-empty underlying text nor the fixed fallback text
(length 16), refuting the claimed non-empty-or-fallback selection. -/
theorem C4_counterexample :
    (processAudio c4State c4Engine).error = some ""
    ∧ (String.length "") = 0
    ∧ fallbackMsg.length = 16 := by
  exact ⟨rfl, rfl, by decide⟩

/-- Witness for the amended C4: the run-throws case of `engineFailsWith`,
discharged at the concrete empty-message scenario. -/
theorem C4_error_message_policy_witness :
    c4State.input = some c4Input
    ∧ engineFailsWith c4Engine (JSError.withMessage "")
    ∧ ((processAudio c4State c4Engine).error
          = some (errorText (JSError.withMessage ""))
        ∧ (processAudio c4State c4Engine).isProcessing = false
        ∧ (processAudio c4State c4Engine).progress = Progress.null
        ∧ (∀ m, errorText (JSError.withMessage m) = m)
        ∧ errorText JSError.other = fallbackMsg) :=
  ⟨rfl, Or.inr (Or.inr (Or.inl ⟨rfl, rfl, rfl⟩)),
    C4_error_message_policy c4State c4Engine c4Input (JSError.withMessage "")
      rfl (Or.inr (Or.inr (Or.inl ⟨rfl, rfl, rfl⟩)))⟩

/-- Truthiness of every formatted size string (used by the ratio-row render
guard). -/
theorem strTruthy_formatFileSize (b : Nat) :
    strTruthy (formatFileSize b) = true := by
  simp only [strTruthy, Bool.not_eq_true', beq_eq_false_iff_ne, ne_eq]
  exact formatFileSize_ne_empty b

/-- When the processed output is at least as large as the original, the
rounded ratio is never strictly positive (including the zero-original case,
where the value is the non-finite sentinel). -/
theorem ratioRound_nonpos (orig proc : Nat) (h : orig ≤ proc) :
    jsGtZero (jsRound (jsRatio orig proc)) = false := by
  by_cases h0 : orig = 0
  · subst h0
    by_cases hp : proc = 0 <;> simp [jsRatio, hp, jsRound, jsGtZero]
  · have horig : (0:ℚ) < (orig:ℚ) := by
      exact_mod_cast Nat.pos_of_ne_zero h0
    have hcast : ((orig:ℚ)) ≤ (proc:ℚ) := by exact_mod_cast h
    have hdiv : ((orig:ℚ) - (proc:ℚ)) / (orig:ℚ) ≤ 0 :=
      div_nonpos_iff.mpr (Or.inr ⟨by linarith, horig.le⟩)
    have hq : ((orig:ℚ) - (proc:ℚ)) / (orig:ℚ) * 100 ≤ 0 := by linarith
    have h2 : Rat.floor (((orig:ℚ) - (proc:ℚ)) / (orig:ℚ) * 100 + 1/2)
        = ⌊((orig:ℚ) - (proc:ℚ)) / (orig:ℚ) * 100 + 1/2⌋ := by
      rw [Rat.floor_def', ← Rat.floor_def]
    have hfl : Rat.floor (((orig:ℚ) - (proc:ℚ)) / (orig:ℚ) * 100 + 1/2) ≤ 0 := by
      rw [h2]
      have h1 : ((orig:ℚ) - (proc:ℚ)) / (orig:ℚ) * 100 + 1/2 ≤ (1/2 : ℚ) := by
        linarith
      calc ⌊((orig:ℚ) - (proc:ℚ)) / (orig:ℚ) * 100 + 1/2⌋
          ≤ ⌊(1/2 : ℚ)⌋ := Int.floor_le_floor h1
        _ = 0 := by rw [Rat.floor_def]; norm_num
    simp only [jsRatio, h0, if_false, jsRound, jsGtZero,
      decide_eq_false_iff_not, not_lt]
    exact_mod_cast hfl

/-- C10: after any successful job, the state holds the rounded compression
ratio computed from the two byte counts (first conjunct), and the result
panel surfaces the ratio row exactly when that stored value is strictly
positive by the JS comparison (second conjunct); in particular whenever the
processed output is at least as large as the original — ratio not positive —
the row is suppressed rather than shown as zero or negative (third
conjunct). -/
theorem C10_ratio_displayed_iff_positive (st : AppState)
    (eng : EngineBehavior) (inp : InputFile) (data : List Nat)
    (hin : st.input = some inp)
    (hload : ensureLoaded eng = Except.ok ())
    (hwrite : eng.writeResult = Except.ok ())
    (hrun : eng.runResult = Except.ok ())
    (hread : eng.readResult = Except.ok data)
    (hne : data.length ≠ 0) :
    (processAudio st eng).compressionRatio
        = jsRound (jsRatio inp.size data.length)
    ∧ ratioDisplayed (processAudio st eng)
        = jsGtZero (jsRound (jsRatio inp.size data.length))
    ∧ (inp.size ≤ data.length →
        ratioDisplayed (processAudio st eng) = false) := by
  rw [processAudio_success st eng inp data hin hload hwrite hrun hread hne]
  refine ⟨rfl, ?_, ?_⟩
  · simp [ratioDisplayed, strTruthy_formatFileSize]
  · intro hle
    simp only [ratioDisplayed, strTruthy_formatFileSize]
    simp only [Option.isSome_some, Bool.true_and]
    exact ratioRound_nonpos inp.size data.length hle

/-- Witness for C10 at a concrete successful run whose output grew. -/
theorem C10_ratio_displayed_iff_positive_witness :
    c10State.input = some c10Input
    ∧ c10Data.length = 10
    ∧ ((processAudio c10State c10Engine).compressionRatio
          = jsRound (jsRatio c10Input.size c10Data.length)
        ∧ ratioDisplayed (processAudio c10State c10Engine)
            = jsGtZero (jsRound (jsRatio c10Input.size c10Data.length))
        ∧ (c10Input.size ≤ c10Data.length →
            ratioDisplayed (processAudio c10State c10Engine) = false)) :=
  ⟨rfl, rfl, C10_ratio_displayed_iff_positive c10State c10Engine c10Input
    c10Data rfl rfl rfl rfl rfl (by decide)⟩
